import Mathlib

/-!
Shallow embedding of the file-index server (crates publib and server):
the hasher (publib/src/file.rs), the record types (publib/src/types.rs),
the store operations (server/src/database.rs), the scanner and index
daemon (server/src/file.rs) and the HTTP auth / query layer
(server/src/server.rs).  File contents are byte lists, the filesystem is
an association list, the SQLite files table is a list of rows, and each
fallible operation returns an Except value.
-/

namespace Waffle

/-! Filesystem model.  A node is a regular file (content bytes plus an
mtime) or a directory (metadata mtime and size as reported by the OS).
A file's reported size is its content length. -/

inductive FsNode where
  | file (content : List Nat) (mtime : Int)
  | dir (mtime : Int) (size : Int)
deriving DecidableEq

abbrev FileSys := List (String × FsNode)

def fsLookup (fs : FileSys) (p : String) : Option FsNode :=
  match fs with
  | [] => none
  | (q, n) :: rest => if q = p then some n else fsLookup rest p

/-- Model of Path::is_dir on the live filesystem: true exactly when the
path exists and is a directory. -/
def fsIsDir (fs : FileSys) (p : String) : Bool :=
  match fsLookup fs p with
  | some (.dir _ _) => true
  | _ => false

def nodeMtime : FsNode → Int
  | .file _ m => m
  | .dir m _ => m

def nodeSize : FsNode → Int
  | .file c _ => (c.length : Int)
  | .dir _ s => s

def nodeIsDir : FsNode → Bool
  | .file _ _ => false
  | .dir _ _ => true

/-- Unified error type: IoError (open / metadata failure) and the two
SQLite failure modes relevant here (malformed statement, UNIQUE
constraint violation on the primary key). -/
inductive Err where
  | ioError
  | sqlSyntax
  | sqlConstraint
deriving DecidableEq

/-! Hasher, from publib/src/file.rs (mod hash).  get_file_hash reads the
file into a 1024-byte buffer in a loop and calls xxhash.update(&buffer)
with the WHOLE buffer each time (not only the read_size bytes that the
read filled), stopping after the first read that returns fewer than
BUFFER_SIZE bytes.  We model a read on a regular file as returning
min(BUFFER_SIZE, remaining) bytes, the buffer as a 1024-element list
initially all zero, and the digest as an arbitrary function of the
concatenation of the buffers fed to the digester (the concrete xxh3
algorithm is a build parameter). -/

def BUFFER_SIZE : Nat := 1024

/-- One read: the first min(BUFFER_SIZE, rest.length) bytes of the
remaining content overwrite the front of the buffer; the tail of the
buffer keeps its previous bytes. -/
def feedOnce (rest buffer : List Nat) : List Nat :=
  rest.take (min BUFFER_SIZE rest.length) ++ buffer.drop (min BUFFER_SIZE rest.length)

/-- The read loop of get_file_hash: returns the concatenation of every
buffer passed to the digester. -/
def hashLoop (rest buffer fed : List Nat) : List Nat :=
  if min BUFFER_SIZE rest.length < BUFFER_SIZE then
    fed ++ feedOnce rest buffer
  else
    hashLoop (rest.drop BUFFER_SIZE) (feedOnce rest buffer) (fed ++ feedOnce rest buffer)
termination_by rest.length
decreasing_by
  simp only [List.length_drop, BUFFER_SIZE] at *
  omega

/-- The byte stream actually fed to the digester for a file with the
given content (buffer initially zeroed, as in the source). -/
def fedStream (content : List Nat) : List Nat :=
  hashLoop content (List.replicate BUFFER_SIZE 0) []

/-- get_file_hash: 0 for a directory; otherwise the digest of the fed
stream.  Open fails (IoError) when the path does not exist. -/
def get_file_hash (digest : List Nat → Nat) (fs : FileSys) (p : String) : Except Err Nat :=
  if fsIsDir fs p then .ok 0
  else
    match fsLookup fs p with
    | some (.file c _) => .ok (digest (fedStream c))
    | _ => .error .ioError

/-- get_hash: none for a directory, otherwise Some of get_file_hash. -/
def get_hash (digest : List Nat → Nat) (fs : FileSys) (p : String) :
    Except Err (Option Nat) :=
  if fsIsDir fs p then .ok none
  else (get_file_hash digest fs p).map some

/-! FileEntry, from publib/src/types.rs. -/

structure FileEntry where
  path : String
  hash : String
  mtime : Int
  size : Int
  is_dir : Bool
deriving DecidableEq

namespace FileEntry

/-- Getter FileEntry::mtime(): returns 0 for directories. -/
def mtimeGet (e : FileEntry) : Int := if e.is_dir then 0 else e.mtime

/-- Getter FileEntry::size(): returns 0 for directories. -/
def sizeGet (e : FileEntry) : Int := if e.is_dir then 0 else e.size

/-- The PartialEq implementation for FileEntry: when self is a
directory compare only is_dir; otherwise compare mtime and size.  The
hash field is never consulted. -/
def feEq (a b : FileEntry) : Bool :=
  if a.is_dir then a.is_dir == b.is_dir
  else a.mtime == b.mtime && a.size == b.size

def check_hash_only (a b : FileEntry) : Bool :=
  if a.is_dir then a.is_dir == b.is_dir
  else a.hash == b.hash

/-- from_metadata, monomorphised: the hash argument has already been
turned into its final string (the generic D: Display + Default takes
unwrap_or_default and to_string at each call site). -/
def from_metadata (p : String) (node : FsNode) (hashStr : String) : FileEntry :=
  { path := p
    hash := hashStr
    mtime := nodeMtime node
    size := nodeSize node
    is_dir := nodeIsDir node }

/-- try_from_path / try_from_entry: metadata lookup then from_metadata;
IoError when the path has no metadata. -/
def try_from_path (fs : FileSys) (p : String) (hashStr : String) :
    Except Err FileEntry :=
  match fsLookup fs p with
  | some node => .ok (from_metadata p node hashStr)
  | none => .error .ioError

/-- override_hash at D = u64: hash.unwrap_or_default().to_string(), so
None becomes the string of 0. -/
def override_hash (e : FileEntry) (h : Option Nat) : FileEntry :=
  { e with hash := toString (h.getD 0) }

end FileEntry

/-- Display at Option String call sites: unwrap_or_default gives the
empty string. -/
def optStr (h : Option String) : String := h.getD ""

/-- Display at Option u64 call sites: unwrap_or_default gives 0, whose
string form is used as the hash. -/
def optU64Str (h : Option Nat) : String := toString (h.getD 0)

/-! The files table, from server/src/database.rs (mod v1).  One row per
path; the hash column is nullable (the directory INSERT leaves it NULL)
and marked defaults to 0. -/

structure Row where
  path : String
  hash : Option String
  mtime : Int
  size : Int
  is_dir : Bool
  marked : Bool
deriving DecidableEq

abbrev Store := List Row

namespace v1

/-- The literal UPDATE statement of v1::update.  Note the stray double
quote after the 1 in marked = 1. -/
def updateSQL : String :=
  "UPDATE \"files\" SET \"hash\" = ?, \"mtime\" = ?, \"size\" = ?, \"marked\" = 1\" WHERE \"path\" = ?"

def countQuotes (s : String) : Nat :=
  (s.toList.filter (fun c => c = '"')).length

/-- In SQLite a double quote opens an identifier that is closed by the
next double quote, so a statement whose quotes do not pair up is a
syntax error.  An odd number of quote characters can never pair up. -/
def quotesBalanced (s : String) : Bool := countQuotes s % 2 == 0

/-- FromRow for FileEntry: the nullable hash column is unwrapped with
unwrap_or_default. -/
def rowToEntry (r : Row) : FileEntry :=
  { path := r.path
    hash := r.hash.getD ""
    mtime := r.mtime
    size := r.size
    is_dir := r.is_dir }

/-- v1::query: SELECT * FROM files WHERE path = ?. -/
def query (st : Store) (p : String) : Option FileEntry :=
  match st with
  | [] => none
  | r :: rest => if r.path = p then some (rowToEntry r) else query rest p

/-- v1::update.  The intended semantics (replace hash, mtime, size and
set marked on the matching row) sit behind the well-formedness of the
statement text; since updateSQL has an unpaired quote, execution always
fails with a syntax error. -/
def update (st : Store) (e : FileEntry) : Except Err Store :=
  if quotesBalanced updateSQL then
    .ok (st.map fun r =>
      if r.path = e.path then
        { r with
          hash := some e.hash
          mtime := e.mtimeGet
          size := e.sizeGet
          marked := true }
      else r)
  else .error .sqlSyntax

/-- v1::mark_path_str: set marked on the matching row; no-op if the
path is absent. -/
def mark_path_str (st : Store) (p : String) : Store :=
  st.map fun r => if r.path = p then { r with marked := true } else r

def mark (st : Store) (e : FileEntry) : Store := mark_path_str st e.path

/-- v1::reset_all_mark: clear marked on every row. -/
def reset_all_mark (st : Store) : Store :=
  st.map fun r => { r with marked := false }

def withSlash (p : String) : String := if p.endsWith "/" then p else p ++ "/"

/-- v1::delete.  The source first asks the LIVE filesystem whether the
path is a directory; only then does it issue the LIKE prefix delete,
otherwise it deletes the exact row.  (Paths containing LIKE
metacharacters are not modelled; no claim exercises them.) -/
def delete (fs : FileSys) (st : Store) (p : String) : Store :=
  if fsIsDir fs p then
    st.filter (fun r => ¬ (withSlash p).isPrefixOf r.path)
  else
    st.filter (fun r => r.path ≠ p)

/-- v1::delete_all_unmarked: remove every row whose marked bit is
clear. -/
def delete_all_unmarked (st : Store) : Store := st.filter (fun r => r.marked)

/-- v1::insert.  A plain INSERT: a row with the same primary key makes
it fail with a constraint violation.  The directory branch names only
the path and is_dir columns, so hash stays NULL and marked stays at its
default 0; the file branch binds is_dir = 0 and marked = 1. -/
def insert (st : Store) (e : FileEntry) : Except Err Store :=
  if st.any (fun r => r.path == e.path) then .error .sqlConstraint
  else if e.is_dir then
    .ok (st ++ [{ path := e.path
                  hash := none
                  mtime := 0
                  size := 0
                  is_dir := true
                  marked := false }])
  else
    .ok (st ++ [{ path := e.path
                  hash := some e.hash
                  mtime := e.mtimeGet
                  size := e.sizeGet
                  is_dir := false
                  marked := true }])

end v1

/-! Scanner, from server/src/file.rs (mod files). -/

/-- files::process_file, the per-entry reconciliation.  The absent
branch computes the hash (None for a directory, then formatted through
Option String so a directory gets the empty string) and inserts; the
present branch first compares with PartialEq and marks on equality,
otherwise recomputes the hash, overrides it (at D = u64) and calls
update. -/
def process_file (digest : List Nat → Nat) (fs : FileSys) (st : Store) (p : String) :
    Except Err Store :=
  match v1.query st p with
  | none =>
    match get_hash digest fs p with
    | .error e => .error e
    | .ok h =>
      match FileEntry.try_from_path fs p (optStr (h.map toString)) with
      | .error e => .error e
      | .ok entry => v1.insert st entry
  | some sql_entry =>
    match FileEntry.try_from_path fs p (optStr none) with
    | .error e => .error e
    | .ok entry =>
      if sql_entry.feEq entry then .ok (v1.mark st entry)
      else
        match get_hash digest fs p with
        | .error e => .error e
        | .ok h => v1.update st (entry.override_hash h)

/-- The walk loop of init_files: process_file on each yielded entry in
walk order, propagating the first error. -/
def processAll (digest : List Nat → Nat) (fs : FileSys) (st : Store)
    (entries : List String) : Except Err Store :=
  match entries with
  | [] => .ok st
  | p :: rest =>
    match process_file digest fs st p with
    | .error e => .error e
    | .ok st2 => processAll digest fs st2 rest

/-- files::init_files: reset all marks, walk the tree processing each
entry, then delete every row still unmarked.  The walk order is the
entries argument (a snapshot of the tree). -/
def init_files (digest : List Nat → Nat) (fs : FileSys) (st : Store)
    (entries : List String) : Except Err Store :=
  match processAll digest fs (v1.reset_all_mark st) entries with
  | .error e => .error e
  | .ok st2 => .ok (v1.delete_all_unmarked st2)

/-! Index daemon, from server/src/file.rs (FileDaemon and mod types). -/

inductive FileEvent where
  | new (paths : List String)
  | update (paths : List String)
  | remove (paths : List String)
  | request (paths : List String)
  | configUpdated (path : String)
  | terminate

/-- The per-path loop of FileDaemon::event_handler for New and Update
events: get_hash, then try_from_path (metadata), then insert, and every
per-path error is propagated with the question-mark operator, so it
stops the loop over the remaining paths of the batch.  The result pairs
the store reached so far with the error, if any. -/
def handleNewPaths (digest : List Nat → Nat) (fs : FileSys) (st : Store)
    (paths : List String) : Store × Option Err :=
  match paths with
  | [] => (st, none)
  | p :: rest =>
    match get_hash digest fs p with
    | .error e => (st, some e)
    | .ok h =>
      match FileEntry.try_from_path fs p (optU64Str h) with
      | .error e => (st, some e)
      | .ok entry =>
        match v1.insert st entry with
        | .error e => (st, some e)
        | .ok st2 => handleNewPaths digest fs st2 rest

/-- The per-path loop of FileDaemon::event_handler for Remove events:
delete each path in turn (delete itself cannot fail in this model). -/
def handleRemovePaths (fs : FileSys) (st : Store) (paths : List String) : Store :=
  match paths with
  | [] => st
  | p :: rest => handleRemovePaths fs (v1.delete fs st p) rest

/-- FileDaemon::event_handler, covering the New / Update / Remove
events it is called with. -/
def event_handler (digest : List Nat → Nat) (fs : FileSys) (st : Store)
    (ev : FileEvent) : Store × Option Err :=
  match ev with
  | .new paths => handleNewPaths digest fs st paths
  | .update paths => handleNewPaths digest fs st paths
  | .remove paths => (handleRemovePaths fs st paths, none)
  | _ => (st, none)

/-- The daemon loop (FileDaemon::handler) as it affects the store:
errors from event_handler are logged and dropped (inspect_err followed
by ok()), so the loop continues with the next event; Terminate breaks
the loop; Request and ConfigureUpdated do not change the store. -/
def runEvents (digest : List Nat → Nat) (fs : FileSys) (st : Store)
    (evs : List FileEvent) : Store :=
  match evs with
  | [] => st
  | ev :: rest =>
    match ev with
    | .new _ => runEvents digest fs (event_handler digest fs st ev).1 rest
    | .update _ => runEvents digest fs (event_handler digest fs st ev).1 rest
    | .remove _ => runEvents digest fs (event_handler digest fs st ev).1 rest
    | .terminate => st
    | .request _ => runEvents digest fs st rest
    | .configUpdated _ => runEvents digest fs st rest

/-! Query results, from publib/src/types.rs (FileMeta / OptionFile). -/

structure FileMeta where
  hash : String
  mtime : Int
  size : Int
  is_dir : Bool
deriving DecidableEq

structure OptionFile where
  path : String
  meta : Option FileMeta
deriving DecidableEq

def FileEntry.toMeta (e : FileEntry) : FileMeta :=
  { hash := e.hash, mtime := e.mtime, size := e.size, is_dir := e.is_dir }

/-- OptionFile::from_option_entry: Absent for None, Present with the
record's metadata otherwise. -/
def OptionFile.from_option_entry (p : String) (e : Option FileEntry) : OptionFile :=
  match e with
  | none => { path := p, meta := none }
  | some e => { path := e.path, meta := some e.toMeta }

/-- The daemon's Request branch: one lookup per path, assembled in
order. -/
def answerRequest (st : Store) (paths : List String) : List OptionFile :=
  paths.map fun p => OptionFile.from_option_entry p (v1.query st p)

/-! HTTP auth layer and the query / file handlers, from
server/src/server.rs.  Header values are modelled as character lists so
the byte-exact bearer parsing is visible. -/

abbrev Chars := List Char

def BEARER : Chars := ['b', 'e', 'a', 'r', 'e', 'r', ' ']

abbrev Pool := List (Chars × List String)

def poolGet (pool : Pool) (t : Chars) : Option (List String) :=
  match pool with
  | [] => none
  | (k, v) :: rest => if k = t then some v else poolGet rest t

/-- auth::check_auth: the Authorization header must start with the
exact lowercase bytes of BEARER; the token is everything after the
first occurrence (split_once), i.e. the rest of the header; it is then
looked up in the pool.  Any failure yields None. -/
def check_auth (pool : Pool) (header : Option Chars) : Option (List String) :=
  match header with
  | none => none
  | some bearer =>
    if BEARER.isPrefixOf bearer then poolGet pool (bearer.drop BEARER.length)
    else none

/-- A request's extension map, keyed by Rust TypeId.  The auth layer
inserts the allowed-prefix list wrapped in the Extension struct (TypeId
of Extension of Vec String); the query handler asks for the bare TypeId
of Vec String.  The two keys are distinct types, modelled as distinct
constructors. -/
inductive ExtVal where
  | plainPaths (paths : List String)
  | wrappedPaths (paths : List String)
deriving DecidableEq

abbrev Extensions := List ExtVal

/-- extensions().get::<Vec<String>>() in the query handler: finds only
a value stored under the bare Vec String key. -/
def getPlainPaths (exts : Extensions) : Option (List String) :=
  match exts with
  | [] => none
  | .plainPaths ps :: _ => some ps
  | _ :: rest => getPlainPaths rest

/-- AuthLayer::authorize: run check_auth; on success insert
Extension(user_id) — the wrapped value — into the request extensions
and let the request through; otherwise answer 401. -/
def authorize (pool : Pool) (header : Option Chars) (exts : Extensions) :
    Except Nat Extensions :=
  match check_auth pool header with
  | some ps => .ok (exts ++ [ExtVal.wrappedPaths ps])
  | none => .error 401

/-- The v1::query handler combined with the daemon's Request branch
(the oneshot round trip, absent a timeout): 500 with no body when the
extension lookup yields None, otherwise 200 with one result per
path. -/
def handle_query (st : Store) (exts : Extensions) : Nat × Option (List OptionFile) :=
  match getPlainPaths exts with
  | none => (500, none)
  | some paths => (200, some (answerRequest st paths))

/-- The v1::get_file handler body: it unconditionally produces 403
Forbidden. -/
def get_file_response : Nat := 403

inductive Route where
  | root
  | filePath (p : String)
  | queryRoute
  | other

/-- The router: the fallback answers 403 without auth; the three
registered routes sit behind the auth layer (route_layer); an
authorized query request runs handle_query on a request whose
extensions initially hold no bare Vec String value; an authorized file
request runs the get_file stub. -/
def handle_request (pool : Pool) (st : Store) (route : Route)
    (header : Option Chars) : Nat × Option (List OptionFile) :=
  match route with
  | .other => (403, none)
  | _ =>
    match authorize pool header [] with
    | .error code => (code, none)
    | .ok exts =>
      match route with
      | .root => (200, none)
      | .queryRoute => handle_query st exts
      | .filePath _ => (get_file_response, none)
      | .other => (403, none)

/-! Concrete instances used to evaluate the model. -/

/-- A concrete digest function (the digest algorithm is a build
parameter; the statements below either hold for every digest or do not
depend on the digest value). -/
def dZero : List Nat → Nat := fun _ => 0

/-- Cold-start tree of the spec scenario: a.txt with content "hi", the
directory b, and b/c.txt with content "yo". -/
def fs1 : FileSys :=
  [("a.txt", .file [104, 105] 11), ("b", .dir 12 4096), ("b/c.txt", .file [121, 111] 13)]

def walk1 : List String := ["a.txt", "b", "b/c.txt"]

def rowA1 : Row :=
  { path := "a.txt", hash := some "0", mtime := 11, size := 2, is_dir := false, marked := true }

def rowC1 : Row :=
  { path := "b/c.txt", hash := some "0", mtime := 13, size := 2, is_dir := false, marked := true }

/-- A store holding a row for a.txt whose fingerprint disagrees with
the live file (mtime 1 and size 1 against live mtime 5 and size 2). -/
def st2 : Store :=
  [{ path := "a.txt", hash := some "h", mtime := 1, size := 1, is_dir := false, marked := false }]

def fs2 : FileSys := [("a.txt", .file [104, 105] 5)]

def st3 : Store :=
  [{ path := "a.txt", hash := some "h", mtime := 1, size := 1, is_dir := false, marked := true }]

def fs3 : FileSys := [("a.txt", .file [104] 9)]

def e3 : FileEntry := { path := "a.txt", hash := "0", mtime := 9, size := 1, is_dir := false }

/-- A filesystem where good.txt exists but missing does not. -/
def fs4 : FileSys := [("good.txt", .file [1] 0)]

def rowB5 : Row :=
  { path := "b", hash := none, mtime := 0, size := 0, is_dir := true, marked := true }

def rowBC5 : Row :=
  { path := "b/c.txt", hash := some "7", mtime := 3, size := 2, is_dir := false, marked := true }

def st5 : Store := [rowB5, rowBC5]

/-- Two files whose contents differ only by a trailing zero byte inside
the same final chunk. -/
def fs6 : FileSys := [("x", .file [97] 0), ("y", .file [97, 0] 0)]

def tok7 : Chars := ['T']

def pool7 : Pool := [(tok7, ["a.txt"])]

def rowA7 : Row :=
  { path := "a.txt", hash := some "9", mtime := 2, size := 1, is_dir := false, marked := true }

def st7 : Store := [rowA7]

def tok8 : Chars := ['U']

def pool8 : Pool := [(tok8, ["pub"])]

def fs8 : FileSys := [("pub", .dir 1 4096), ("pub/x", .file [104] 1)]

def st8 : Store :=
  [{ path := "pub/x", hash := some "5", mtime := 1, size := 1, is_dir := false, marked := true }]

def a10 : FileEntry := { path := "a", hash := "h1", mtime := 5, size := 6, is_dir := false }

def b10 : FileEntry := { path := "b", hash := "h2", mtime := 5, size := 6, is_dir := true }

/-- A stored file row whose live counterpart became a directory with
the same raw mtime and size metadata. -/
def r10 : Row :=
  { path := "p", hash := some "old", mtime := 7, size := 3, is_dir := false, marked := false }

def fs10 : FileSys := [("p", .dir 7 3)]

/-! Helper lemmas. -/

/-- When the remaining content is shorter than the buffer, the read
loop performs exactly one more read and stops. -/
theorem hashLoop_last (rest buffer fed : List Nat) (h : rest.length < BUFFER_SIZE) :
    hashLoop rest buffer fed = fed ++ feedOnce rest buffer := by
  unfold hashLoop
  rw [if_pos]
  exact Nat.lt_of_le_of_lt (Nat.min_le_right _ _) h

/-- For content shorter than one chunk, the digester is fed the content
followed by the untouched zero tail of the buffer. -/
theorem fedStream_single_chunk (content : List Nat) (h : content.length < BUFFER_SIZE) :
    fedStream content = content ++ (List.replicate BUFFER_SIZE 0).drop content.length := by
  rw [fedStream, hashLoop_last _ _ _ h, feedOnce,
    Nat.min_eq_right (Nat.le_of_lt h), List.take_length, List.nil_append]

/-- check_auth succeeds exactly on headers that are the bearer marker
followed by a token present in the pool. -/
theorem check_auth_some_iff (pool : Pool) (header : Option Chars) (ps : List String) :
    check_auth pool header = some ps ↔
      ∃ t, header = some (BEARER ++ t) ∧ poolGet pool t = some ps := by
  cases header with
  | none =>
    simp [check_auth]
  | some s =>
    by_cases hp : BEARER.isPrefixOf s
    · obtain ⟨t0, ht0⟩ := List.isPrefixOf_iff_prefix.mp hp
      constructor
      · intro h
        refine ⟨t0, by rw [ht0], ?_⟩
        rw [check_auth, if_pos hp] at h
        rwa [← ht0, List.drop_left] at h
      · rintro ⟨t, hts, hget⟩
        have hst : s = BEARER ++ t := by injection hts
        rw [check_auth, if_pos hp, hst, List.drop_left]
        exact hget
    · constructor
      · intro h
        rw [check_auth, if_neg hp] at h
        exact absurd h (by simp)
      · rintro ⟨t, hts, hget⟩
        have hst : s = BEARER ++ t := by injection hts
        exact absurd (List.isPrefixOf_iff_prefix.mpr ⟨t, hst.symm⟩) hp

/-- check_auth fails exactly when no decomposition of the header into
the bearer marker plus a pool token exists. -/
theorem check_auth_none_iff (pool : Pool) (header : Option Chars) :
    check_auth pool header = none ↔
      ∀ t, header = some (BEARER ++ t) → poolGet pool t = none := by
  constructor
  · intro h t ht
    cases hg : poolGet pool t with
    | none => rfl
    | some ps =>
      have : check_auth pool header = some ps :=
        (check_auth_some_iff pool header ps).mpr ⟨t, ht, hg⟩
      rw [h] at this
      exact absurd this (by simp)
  · intro h
    cases hc : check_auth pool header with
    | none => rfl
    | some ps =>
      obtain ⟨t, ht, hg⟩ := (check_auth_some_iff pool header ps).mp hc
      rw [h t ht] at hg
      exact absurd hg (by simp)

/-- The two padded feeds coincide: the byte stream fed to the digester
for content 97 equals the one for content 97, 0. -/
theorem fedStream_pad_collision : fedStream [97] = fedStream [97, 0] := by
  rw [fedStream_single_chunk [97] (by norm_num [BUFFER_SIZE]),
    fedStream_single_chunk [97, 0] (by norm_num [BUFFER_SIZE])]
  have h1 : (List.replicate BUFFER_SIZE (0 : Nat)).drop (1 : Nat) =
      (0 : Nat) :: (List.replicate BUFFER_SIZE (0 : Nat)).drop (2 : Nat) := by
    rw [BUFFER_SIZE]
    rfl
  simp [h1]

/-! Claim theorems. -/

/-- C1.  Cold start over the tree with a.txt, b and b/c.txt from an
empty store leaves only 2 rows, a.txt and b/c.txt: the directory INSERT
leaves marked at its default 0, so the sweep deletes the row b that the
claim requires to survive.  The live tree has 3 entries, the store
keeps 2, and no surviving row has path b. -/
theorem c1_cold_start_drops_directory_row :
    init_files dZero fs1 [] walk1 = .ok [rowA1, rowC1] ∧
    List.map Row.path [rowA1, rowC1] = ["a.txt", "b/c.txt"] ∧
    (List.map Row.path [rowA1, rowC1]).contains "b" = false ∧
    fs1.length = 3 ∧
    rowA1.size = 2 := by
  refine ⟨rfl, rfl, rfl, rfl, rfl⟩

/-- C2.  The UPDATE statement of v1::update holds 13 double-quote
characters, an odd number, so its quotes cannot pair and SQLite rejects
it; hence update fails on every input, and the scanner's present,
unequal branch (store row for a.txt with stale fingerprint, live file
changed) ends in that error instead of replacing the row. -/
theorem c2_update_statement_malformed :
    v1.countQuotes v1.updateSQL = 13 ∧
    v1.countQuotes v1.updateSQL % 2 = 1 ∧
    (∀ (st : Store) (e : FileEntry), v1.update st e = .error .sqlSyntax) ∧
    process_file dZero fs2 st2 "a.txt" = .error .sqlSyntax := by
  exact ⟨rfl, rfl, fun _ _ => rfl, rfl⟩

/-- C3.  v1::insert is a plain INSERT: applied to an entry whose path
is already a row it fails with the primary-key constraint violation
instead of replacing in place, and the daemon's handling of an Updated
event for the known path a.txt therefore ends in that error with the
store unchanged. -/
theorem c3_insert_fails_on_existing_path :
    v1.insert st3 e3 = .error .sqlConstraint ∧
    event_handler dZero fs3 st3 (.update ["a.txt"]) = (st3, some .sqlConstraint) := by
  exact ⟨rfl, rfl⟩

/-- C4 counterexample.  In the batch Created(missing, good.txt) the
first path fails its hash read; the claim says good.txt is still
applied, but the daemon's per-path question mark aborts the batch: the
store stays empty and the query for good.txt finds nothing. -/
theorem c4_counterexample_batch_aborted :
    event_handler dZero fs4 [] (.new ["missing", "good.txt"]) = ([], some .ioError) ∧
    v1.query (event_handler dZero fs4 [] (.new ["missing", "good.txt"])).1 "good.txt" = none := by
  exact ⟨rfl, rfl⟩

/-- C4 amended.  A per-path failure inside a Created or Updated batch
aborts the remaining paths of that batch: the store keeps only the
effects of the paths before the failure, the error is surfaced to the
daemon loop (which logs it), and the daemon continues with subsequent
events. -/
theorem c4_per_path_error_aborts_batch (digest : List Nat → Nat) (fs : FileSys)
    (st : Store) (bad : String) (rest : List String) (evs : List FileEvent)
    (h : fsLookup fs bad = none) :
    event_handler digest fs st (.new (bad :: rest)) = (st, some .ioError) ∧
    runEvents digest fs st (.new (bad :: rest) :: evs) = runEvents digest fs st evs := by
  have hd : fsIsDir fs bad = false := by
    rw [fsIsDir, h]
  have hg : get_hash digest fs bad = .error .ioError := by
    rw [get_hash, if_neg (by simp [hd]), get_file_hash, if_neg (by simp [hd]), h]
    rfl
  have he : event_handler digest fs st (.new (bad :: rest)) = (st, some .ioError) := by
    rw [event_handler, handleNewPaths, hg]
  refine ⟨he, ?_⟩
  rw [runEvents, he]

/-- C4 amended, witness: over the empty filesystem the path missing has
no metadata, the singleton batch aborts with the io error, and the
daemon goes on to the following event. -/
theorem c4_per_path_error_aborts_batch_witness :
    event_handler dZero [] [] (.new ["missing"]) = ([], some .ioError) ∧
    runEvents dZero [] [] [.new ["missing"], .terminate] = runEvents dZero [] [] [.terminate] :=
  c4_per_path_error_aborts_batch dZero [] [] "missing" [] [.terminate] rfl

/-- C5.  After rm -r b the path b is no longer a directory on the live
filesystem, so v1::delete takes its exact-row branch: Removed(b)
removes only the row b, the child row b/c.txt survives, and a
subsequent query for b/c.txt returns Present (not Absent as the claim
states). -/
theorem c5_removed_directory_leaves_children :
    fsIsDir [] "b" = false ∧
    event_handler dZero [] st5 (.remove ["b"]) = ([rowBC5], none) ∧
    v1.query [rowBC5] "b/c.txt" = some (v1.rowToEntry rowBC5) ∧
    OptionFile.from_option_entry "b/c.txt" (v1.query [rowBC5] "b/c.txt") =
      { path := "b/c.txt", meta := some (v1.rowToEntry rowBC5).toMeta } := by
  exact ⟨rfl, rfl, rfl, rfl⟩

/-- C6.  The hasher feeds the digester the whole 1024-byte buffer after
every read, not the bytes actually read: the stream fed for the 1-byte
content 97 is 1024 bytes long (not the content), and it coincides with
the stream fed for the distinct 2-byte content 97, 0 — so for every
digest function the two files x and y receive equal hashes although
their byte contents differ, refuting the equal-iff-equal-content
claim. -/
theorem c6_hash_collision_on_distinct_contents :
    (([97] : List Nat) == [97, 0]) = false ∧
    (fedStream [97]).length = BUFFER_SIZE ∧
    ∀ digest : List Nat → Nat,
      get_file_hash digest fs6 "x" = get_file_hash digest fs6 "y" := by
  refine ⟨rfl, ?_, ?_⟩
  · rw [fedStream_single_chunk [97] (by norm_num [BUFFER_SIZE])]
    simp only [List.length_append, List.length_drop, List.length_replicate,
      List.length_cons, List.length_nil, BUFFER_SIZE]
  · intro digest
    show Except.ok (digest (fedStream [97])) = Except.ok (digest (fedStream [97, 0]))
    rw [fedStream_pad_collision]

/-- C7.  With token T in the pool and the exact bearer header, the auth
layer stores the allowed-prefix list wrapped as Extension of Vec
String, but the query handler reads the bare Vec String key: the lookup
yields none and the authorized query request is answered 500 (Paths is
None) rather than 200, even though the store holds the row the batch
would have found. -/
theorem c7_query_answers_500_extension_mismatch :
    check_auth pool7 (some (BEARER ++ tok7)) = some ["a.txt"] ∧
    authorize pool7 (some (BEARER ++ tok7)) [] = .ok [ExtVal.wrappedPaths ["a.txt"]] ∧
    getPlainPaths [ExtVal.wrappedPaths ["a.txt"]] = none ∧
    handle_request pool7 st7 .queryRoute (some (BEARER ++ tok7)) = (500, none) ∧
    v1.query st7 "a.txt" = some (v1.rowToEntry rowA7) := by
  exact ⟨rfl, rfl, rfl, rfl, rfl⟩

/-- C8.  The get_file handler is a stub that always answers 403: with a
valid token whose allowed prefix covers the path, and pub/x an existing
regular file, the response to the file route is still 403, not the
200 stream the claim describes. -/
theorem c8_get_file_always_forbidden :
    fsLookup fs8 "pub/x" = some (FsNode.file [104] 1) ∧
    check_auth pool8 (some (BEARER ++ tok8)) = some ["pub"] ∧
    handle_request pool8 st8 (.filePath "pub/x") (some (BEARER ++ tok8)) = (403, none) ∧
    get_file_response = 403 := by
  exact ⟨rfl, rfl, rfl, rfl⟩

/-- C9.  The middleware answers 401 exactly when the Authorization
header is not the lowercase bytes bearer-space followed by a token of
the current pool; otherwise it attaches that token's allowed-prefix
list to the request extensions and lets the request through. -/
theorem c9_auth_layer_bearer_exact (pool : Pool) (header : Option Chars)
    (exts : Extensions) :
    (authorize pool header exts = .error 401 ↔
      ∀ t, header = some (BEARER ++ t) → poolGet pool t = none) ∧
    ∀ t ps, header = some (BEARER ++ t) → poolGet pool t = some ps →
      authorize pool header exts = .ok (exts ++ [ExtVal.wrappedPaths ps]) := by
  constructor
  · cases hc : check_auth pool header with
    | none =>
      rw [authorize, hc]
      simp only [true_iff]
      exact (check_auth_none_iff pool header).mp hc
    | some ps =>
      rw [authorize, hc]
      constructor
      · intro h
        exact absurd h (by simp)
      · intro h
        obtain ⟨t, ht, hg⟩ := (check_auth_some_iff pool header ps).mp hc
        rw [h t ht] at hg
        exact absurd hg (by simp)
  · intro t ps ht hg
    rw [authorize, (check_auth_some_iff pool header ps).mpr ⟨t, ht, hg⟩]

/-- C9 witness: the token T with the exact header is let through with
its prefix list attached, and a header of any other shape is answered
401. -/
theorem c9_auth_layer_bearer_exact_witness :
    authorize pool7 (some (BEARER ++ tok7)) [] = .ok [ExtVal.wrappedPaths ["a.txt"]] ∧
    authorize pool7 (some ['x']) [] = .error 401 := by
  constructor
  · exact (c9_auth_layer_bearer_exact pool7 (some (BEARER ++ tok7)) []).2
      tok7 ["a.txt"] rfl (by decide)
  · exact (c9_auth_layer_bearer_exact pool7 (some ['x']) []).1.mpr
      (by intro t h; simp [BEARER] at h)

/-- C10.  The record equality of FileEntry is not symmetric: a file
record a and a directory record b with equal raw mtime and size satisfy
a == b but not b == a; the comparison never reads the hash field; and
on a store row for p whose live entry turned into a directory with the
same metadata, the scanner takes the equal branch and merely marks the
stale row instead of updating it. -/
theorem c10_record_equality_asymmetric (a b : FileEntry)
    (ha : a.is_dir = false) (hb : b.is_dir = true)
    (hm : a.mtime = b.mtime) (hs : a.size = b.size) :
    FileEntry.feEq a b = true ∧ FileEntry.feEq b a = false ∧
    (∀ (x y : FileEntry) (h1 h2 : String),
      FileEntry.feEq { x with hash := h1 } { y with hash := h2 } = FileEntry.feEq x y) ∧
    process_file dZero fs10 [r10] "p" = .ok [{ r10 with marked := true }] := by
  refine ⟨?_, ?_, fun _ _ _ _ => rfl, rfl⟩
  · rw [FileEntry.feEq, if_neg (by simp [ha]), hm, hs]
    simp
  · rw [FileEntry.feEq, if_pos (by simp [hb]), hb, ha]
    rfl

/-- C10 witness: the concrete file record a10 and directory record b10
share mtime 5 and size 6; the asymmetry and the scanner behaviour are
obtained by direct application. -/
theorem c10_record_equality_asymmetric_witness :
    FileEntry.feEq a10 b10 = true ∧ FileEntry.feEq b10 a10 = false ∧
    (∀ (x y : FileEntry) (h1 h2 : String),
      FileEntry.feEq { x with hash := h1 } { y with hash := h2 } = FileEntry.feEq x y) ∧
    process_file dZero fs10 [r10] "p" = .ok [{ r10 with marked := true }] :=
  c10_record_equality_asymmetric a10 b10 rfl rfl rfl rfl

end Waffle
